import Mathlib

/-!
Verification of the Modbus cell primitive (`include/MB/modbusCell.hpp`).

The C++ class `MB::ModbusCell` stores a `std::variant<uint16_t, uint8_t, bool>`.
We embed it as an inductive type with one constructor per variant alternative,
with machine integers modelled as `Nat` (a `uint16_t` payload is below 65536, a
`uint8_t` payload is below 256; wrapping is written with explicit `% 2^w`).

The mutable coercing accessors `coil()`, `reg()`, `val()` mutate the variant
before returning a reference; we embed each as a state-passing function
returning the accessed value together with the cell after the call.  The
`const` strict accessors call `std::get`, which throws `bad_variant_access` on
a kind mismatch; we embed them as `Except CellError` values.  `toString()` is
built from the guarded strict accessors, so we embed it with the same `Except`
plumbing and prove the error branch unreachable.
-/

namespace MB

/-- The three alternatives of `std::variant<uint16_t, uint8_t, bool>`:
a 16-bit register, an 8-bit value, or a boolean coil. -/
inductive ModbusCell : Type where
  | coilCell : Bool → ModbusCell
  | regCell : Nat → ModbusCell
  | valCell : Nat → ModbusCell
  deriving DecidableEq

/-- The single error kind: a strict accessor requested a kind different from
the active one (C++ `std::bad_variant_access`). -/
inductive CellError : Type where
  | kindMismatch : CellError
  deriving DecidableEq

namespace ModbusCell

/-- `ModbusCell()`: default construction value-initialises the variant to its
first alternative `uint16_t`, i.e. a register holding 0. -/
def mkDefault : ModbusCell := regCell 0

/-- `ModbusCell(uint16_t reg)` / `initReg`: the argument is a `uint16_t`,
hence reduced modulo 2^16. -/
def initReg (r : Nat) : ModbusCell := regCell (r % 65536)

/-- `ModbusCell(bool coil)` / `initCoil`. -/
def initCoil (b : Bool) : ModbusCell := coilCell b

/-- `ModbusCell(uint8_t val)` / `initVal`: the argument is a `uint8_t`,
hence reduced modulo 2^8. -/
def initVal (v : Nat) : ModbusCell := valCell (v % 256)

/-- `isCoil()`: `std::holds_alternative<bool>(_value)`. -/
def isCoil : ModbusCell → Bool
  | coilCell _ => true
  | _ => false

/-- `isReg()`: `std::holds_alternative<uint16_t>(_value)`. -/
def isReg : ModbusCell → Bool
  | regCell _ => true
  | _ => false

/-- `isVal()`: `std::holds_alternative<uint8_t>(_value)`. -/
def isVal : ModbusCell → Bool
  | valCell _ => true
  | _ => false

/-- Mutable `coil()`: if the cell holds a register or a value, overwrite the
variant with `static_cast<bool>` of the stored number (false iff it is 0),
then return the stored bool.  Result: (returned value, cell after the call). -/
def coil : ModbusCell → Bool × ModbusCell
  | coilCell b => (b, coilCell b)
  | regCell r => ((r != 0), coilCell (r != 0))
  | valCell v => ((v != 0), coilCell (v != 0))

/-- Mutable `reg()`: if the cell holds a coil, overwrite with
`static_cast<uint16_t>` of the bool (true to 1, false to 0); if it holds an
8-bit value, widen it unchanged; then return the stored `uint16_t`. -/
def reg : ModbusCell → Nat × ModbusCell
  | coilCell b => (cond b 1 0, regCell (cond b 1 0))
  | regCell r => (r, regCell r)
  | valCell v => (v, regCell v)

/-- Mutable `val()`: if the cell holds a coil, overwrite with
`static_cast<uint8_t>` of the bool; if it holds a register, narrow it with
`static_cast<uint8_t>`, i.e. keep the low 8 bits (`% 256`); then return the
stored `uint8_t`. -/
def val : ModbusCell → Nat × ModbusCell
  | coilCell b => (cond b 1 0, valCell (cond b 1 0))
  | regCell r => (r % 256, valCell (r % 256))
  | valCell v => (v, valCell v)

/-- Strict `coil() const`: `std::get<bool>(_value)`, throwing on mismatch.
It is a `const` member: the cell is not mutated, which the embedding reflects
by not producing a successor cell at all. -/
def coilConst : ModbusCell → Except CellError Bool
  | coilCell b => Except.ok b
  | _ => Except.error CellError.kindMismatch

/-- Strict `reg() const`: `std::get<uint16_t>(_value)`, throwing on mismatch. -/
def regConst : ModbusCell → Except CellError Nat
  | regCell r => Except.ok r
  | _ => Except.error CellError.kindMismatch

/-- Strict `val() const`: `std::get<uint8_t>(_value)`, throwing on mismatch. -/
def valConst : ModbusCell → Except CellError Nat
  | valCell v => Except.ok v
  | _ => Except.error CellError.kindMismatch

/-- `toString()`: `isCoil() ? (coil() ? "true" : "false") :
(isReg() ? to_string(reg()) : to_string(val()))`.  The strict accessors it
calls are fallible, so the embedding is `Except`-valued; totality of the C++
function (declared `noexcept`) is the theorem that the error never occurs. -/
def toString (c : ModbusCell) : Except CellError String :=
  if c.isCoil then
    Except.map (fun b => if b then "true" else "false") c.coilConst
  else if c.isReg then
    Except.map (fun r => Nat.repr r) c.regConst
  else
    Except.map (fun v => Nat.repr v) c.valConst

/-- Number of kind predicates returning true on a cell. -/
def kindCount (c : ModbusCell) : Nat :=
  (if c.isCoil then 1 else 0) + (if c.isReg then 1 else 0) + (if c.isVal then 1 else 0)

end ModbusCell

/-- C1: each coercing mutable accessor leaves the cell with its own kind
active (the prior kind is gone), and on a cell already of that kind it
returns the stored value with the cell unchanged (no conversion). -/
theorem coercing_access_sets_kind_and_is_identity_on_match :
    (∀ c : ModbusCell, (c.coil).2.isCoil = true ∧ (c.reg).2.isReg = true ∧ (c.val).2.isVal = true)
    ∧ (∀ b : Bool, ModbusCell.coil (ModbusCell.coilCell b) = (b, ModbusCell.coilCell b))
    ∧ (∀ r : Nat, ModbusCell.reg (ModbusCell.regCell r) = (r, ModbusCell.regCell r))
    ∧ (∀ v : Nat, ModbusCell.val (ModbusCell.valCell v) = (v, ModbusCell.valCell v)) := by
  refine ⟨fun c => ?_, fun b => rfl, fun r => rfl, fun v => rfl⟩
  cases c <;> simp [ModbusCell.coil, ModbusCell.reg, ModbusCell.val,
    ModbusCell.isCoil, ModbusCell.isReg, ModbusCell.isVal]

/-- C2: coercion to and from Coil follows the boolean rules: a register or
value cell holding 0 coerces to the coil `false` and one holding a non-zero
number coerces to `true`; a coil cell coerces to the register or value 0 when
`false` and 1 when `true`. -/
theorem coil_coercion_boolean_rules :
    ((ModbusCell.regCell 0).coil.1 = false)
    ∧ ((ModbusCell.valCell 0).coil.1 = false)
    ∧ (∀ r : Nat, r ≠ 0 → (ModbusCell.regCell r).coil.1 = true)
    ∧ (∀ v : Nat, v ≠ 0 → (ModbusCell.valCell v).coil.1 = true)
    ∧ ((ModbusCell.coilCell false).reg.1 = 0)
    ∧ ((ModbusCell.coilCell true).reg.1 = 1)
    ∧ ((ModbusCell.coilCell false).val.1 = 0)
    ∧ ((ModbusCell.coilCell true).val.1 = 1) := by
  exact ⟨rfl, rfl, fun r hr => by simp [ModbusCell.coil, hr],
    fun v hv => by simp [ModbusCell.coil, hv], rfl, rfl, rfl, rfl⟩

/-- Witness for C2 at the concrete non-zero inputs 5 and 3. -/
theorem coil_coercion_boolean_rules_witness :
    (ModbusCell.regCell 5).coil.1 = true ∧ (ModbusCell.valCell 3).coil.1 = true :=
  ⟨coil_coercion_boolean_rules.2.2.1 5 (by decide),
   coil_coercion_boolean_rules.2.2.2.1 3 (by decide)⟩

/-- C3: numeric coercion between Register and Value: the coercing value
accessor on a register cell keeps the low 8 bits (`% 256`) with no range
check (e.g. 300 yields 44), and the coercing register accessor on a value
cell returns it unchanged. -/
theorem reg_val_numeric_coercion :
    (∀ r : Nat, (ModbusCell.regCell r).val = (r % 256, ModbusCell.valCell (r % 256)))
    ∧ (∀ v : Nat, (ModbusCell.valCell v).reg = (v, ModbusCell.regCell v))
    ∧ ((ModbusCell.regCell 300).val.1 = 44)
    ∧ ((ModbusCell.regCell 300).val.2.isVal = true) := by
  exact ⟨fun r => rfl, fun v => rfl, by decide, by decide⟩

/-- C4: a strict immutable accessor fails with the kind-mismatch error exactly
when the active kind differs from the requested one, succeeds with the stored
value unchanged when it matches, and the kind mismatch is the only error kind
in the component.  The strict accessors are `const` and modelled as pure
functions producing no successor cell, so they cannot mutate the cell. -/
theorem strict_access_exactly_on_matching_kind :
    (∀ c : ModbusCell, c.coilConst = Except.error CellError.kindMismatch ↔ c.isCoil = false)
    ∧ (∀ c : ModbusCell, c.regConst = Except.error CellError.kindMismatch ↔ c.isReg = false)
    ∧ (∀ c : ModbusCell, c.valConst = Except.error CellError.kindMismatch ↔ c.isVal = false)
    ∧ (∀ b : Bool, (ModbusCell.coilCell b).coilConst = Except.ok b)
    ∧ (∀ r : Nat, (ModbusCell.regCell r).regConst = Except.ok r)
    ∧ (∀ v : Nat, (ModbusCell.valCell v).valConst = Except.ok v)
    ∧ (∀ e : CellError, e = CellError.kindMismatch) := by
  refine ⟨fun c => ?_, fun c => ?_, fun c => ?_, fun b => rfl, fun r => rfl, fun v => rfl,
    fun e => ?_⟩
  · cases c <;> simp [ModbusCell.coilConst, ModbusCell.isCoil]
  · cases c <;> simp [ModbusCell.regConst, ModbusCell.isReg]
  · cases c <;> simp [ModbusCell.valConst, ModbusCell.isVal]
  · cases e; rfl

/-- C5: construction round-trips through strict access: a cell built from a
bool is a coil (and nothing else) whose strict coil accessor returns that
bool; a cell built from a 16-bit number is a register whose strict register
accessor returns it; a cell built from an 8-bit number is a value whose
strict value accessor returns it. -/
theorem construction_roundtrip :
    (∀ b : Bool, (ModbusCell.initCoil b).isCoil = true ∧ (ModbusCell.initCoil b).isReg = false
      ∧ (ModbusCell.initCoil b).isVal = false
      ∧ (ModbusCell.initCoil b).coilConst = Except.ok b)
    ∧ (∀ r : Nat, r < 65536 → (ModbusCell.initReg r).isReg = true
      ∧ (ModbusCell.initReg r).regConst = Except.ok r)
    ∧ (∀ v : Nat, v < 256 → (ModbusCell.initVal v).isVal = true
      ∧ (ModbusCell.initVal v).valConst = Except.ok v) := by
  refine ⟨fun b => ⟨rfl, rfl, rfl, rfl⟩, fun r hr => ⟨rfl, ?_⟩, fun v hv => ⟨rfl, ?_⟩⟩
  · simp [ModbusCell.initReg, ModbusCell.regConst, Nat.mod_eq_of_lt hr]
  · simp [ModbusCell.initVal, ModbusCell.valConst, Nat.mod_eq_of_lt hv]

/-- Witness for C5 at the concrete inputs 1234 (a 16-bit value) and 200
(an 8-bit value). -/
theorem construction_roundtrip_witness :
    ((ModbusCell.initReg 1234).isReg = true
      ∧ (ModbusCell.initReg 1234).regConst = Except.ok 1234)
    ∧ ((ModbusCell.initVal 200).isVal = true
      ∧ (ModbusCell.initVal 200).valConst = Except.ok 200) :=
  ⟨construction_roundtrip.2.1 1234 (by decide),
   construction_roundtrip.2.2 200 (by decide)⟩

/-- C6: a default-constructed cell is exactly the register cell holding 0,
and equals the cell constructed from the 16-bit value 0; being equal as
values, the two behave identically under every operation. -/
theorem default_is_register_zero :
    ModbusCell.mkDefault = ModbusCell.regCell 0
    ∧ ModbusCell.mkDefault = ModbusCell.initReg 0 :=
  ⟨rfl, rfl⟩

/-- C7: `toString` is total (never produces the error) and renders: the
literal "true" or "false" on a coil cell, the decimal text of the stored
number on a register or value cell (42 renders as "42", 7 as "7"). -/
theorem toString_total_and_renders :
    (∀ c : ModbusCell, ∃ s : String, c.toString = Except.ok s)
    ∧ (∀ b : Bool,
        (ModbusCell.coilCell b).toString = Except.ok (if b then "true" else "false"))
    ∧ (∀ r : Nat, (ModbusCell.regCell r).toString = Except.ok (Nat.repr r))
    ∧ (∀ v : Nat, (ModbusCell.valCell v).toString = Except.ok (Nat.repr v))
    ∧ ((ModbusCell.coilCell true).toString = Except.ok "true")
    ∧ ((ModbusCell.regCell 42).toString = Except.ok "42")
    ∧ ((ModbusCell.valCell 7).toString = Except.ok "7") := by
  refine ⟨fun c => ?_, fun b => rfl, fun r => rfl, fun v => rfl, rfl, rfl, rfl⟩
  cases c with
  | coilCell b => exact ⟨if b then "true" else "false", rfl⟩
  | regCell r => exact ⟨Nat.repr r, rfl⟩
  | valCell v => exact ⟨Nat.repr v, rfl⟩

/-- C8: for every cell exactly one of the three kind predicates returns true
(they are mutually exclusive and collectively exhaustive); the predicates are
pure functions, so inspecting a kind has no effect on the cell, and the
exactly-one property holds after every construction and every coercing
access. -/
theorem kinds_mutually_exclusive_exhaustive :
    (∀ c : ModbusCell, ModbusCell.kindCount c = 1)
    ∧ (∀ c : ModbusCell, ModbusCell.kindCount (c.coil).2 = 1
      ∧ ModbusCell.kindCount (c.reg).2 = 1 ∧ ModbusCell.kindCount (c.val).2 = 1)
    ∧ (∀ b : Bool, ModbusCell.kindCount (ModbusCell.initCoil b) = 1)
    ∧ (∀ r : Nat, ModbusCell.kindCount (ModbusCell.initReg r) = 1)
    ∧ (∀ v : Nat, ModbusCell.kindCount (ModbusCell.initVal v) = 1)
    ∧ (ModbusCell.kindCount ModbusCell.mkDefault = 1) := by
  have hone : ∀ c : ModbusCell, ModbusCell.kindCount c = 1 := by
    intro c
    cases c <;> rfl
  exact ⟨hone, fun c => ⟨hone _, hone _, hone _⟩, fun b => hone _, fun r => hone _,
    fun v => hone _, hone _⟩

/-- C9: `toString` is total even though it calls the fallible strict
accessors, because each strict call is guarded by the matching kind predicate
on the same unmodified cell: under `isCoil` the strict coil accessor
succeeds, under `not isCoil and isReg` the strict register accessor succeeds,
under `not isCoil and not isReg` the strict value accessor succeeds, so the
error branch of `toString` is unreachable on every cell. -/
theorem toString_guards_make_strict_calls_safe :
    ∀ c : ModbusCell,
      (c.isCoil = true → ∃ b : Bool, c.coilConst = Except.ok b)
      ∧ (c.isCoil = false → c.isReg = true → ∃ r : Nat, c.regConst = Except.ok r)
      ∧ (c.isCoil = false → c.isReg = false → ∃ v : Nat, c.valConst = Except.ok v)
      ∧ (∀ e : CellError, c.toString ≠ Except.error e) := by
  intro c
  cases c with
  | coilCell b =>
    exact ⟨fun _ => ⟨b, rfl⟩, fun h => by simp [ModbusCell.isCoil] at h,
      fun h _ => by simp [ModbusCell.isCoil] at h, fun e h => by
        simp [ModbusCell.toString, ModbusCell.isCoil, ModbusCell.coilConst,
          Except.map] at h⟩
  | regCell r =>
    exact ⟨fun h => by simp [ModbusCell.isCoil] at h, fun _ _ => ⟨r, rfl⟩,
      fun _ h => by simp [ModbusCell.isReg] at h, fun e h => by
        simp [ModbusCell.toString, ModbusCell.isCoil, ModbusCell.isReg,
          ModbusCell.regConst, Except.map] at h⟩
  | valCell v =>
    exact ⟨fun h => by simp [ModbusCell.isCoil] at h,
      fun _ h => by simp [ModbusCell.isReg] at h, fun _ _ => ⟨v, rfl⟩,
      fun e h => by
        simp [ModbusCell.toString, ModbusCell.isCoil, ModbusCell.isReg,
          ModbusCell.valConst, Except.map] at h⟩

/-- Witness for C9 at the three concrete cells `coilCell true`, `regCell 42`
and `valCell 7`, discharging each guard hypothesis there. -/
theorem toString_guards_make_strict_calls_safe_witness :
    (∃ b : Bool, (ModbusCell.coilCell true).coilConst = Except.ok b)
    ∧ (∃ r : Nat, (ModbusCell.regCell 42).regConst = Except.ok r)
    ∧ (∃ v : Nat, (ModbusCell.valCell 7).valConst = Except.ok v) :=
  ⟨(toString_guards_make_strict_calls_safe (ModbusCell.coilCell true)).1 (by decide),
   (toString_guards_make_strict_calls_safe (ModbusCell.regCell 42)).2.1 (by decide) (by decide),
   (toString_guards_make_strict_calls_safe (ModbusCell.valCell 7)).2.2.1 (by decide) (by decide)⟩

/-- C10: coercing through Register is lossless for the smaller kinds: a value
cell holding an 8-bit number, coerced to Register and then back to Value,
returns the original number with the cell again a value cell; a coil cell,
coerced to Register and back to Coil, returns the original bool. -/
theorem coercion_through_register_lossless :
    (∀ v : Nat, v < 256 →
      ModbusCell.val ((ModbusCell.valCell v).reg.2) = (v, ModbusCell.valCell v))
    ∧ (∀ b : Bool,
      ModbusCell.coil ((ModbusCell.coilCell b).reg.2) = (b, ModbusCell.coilCell b)) := by
  refine ⟨fun v hv => ?_, fun b => ?_⟩
  · simp [ModbusCell.reg, ModbusCell.val, Nat.mod_eq_of_lt hv]
  · cases b <;> rfl

/-- Witness for C10 at the concrete 8-bit input 200. -/
theorem coercion_through_register_lossless_witness :
    ModbusCell.val ((ModbusCell.valCell 200).reg.2) = (200, ModbusCell.valCell 200) :=
  coercion_through_register_lossless.1 200 (by decide)

end MB
